import Mathlib

/-!
# GhostTube — verification of the download-job engine

Shallow embedding of the GhostTube backend (two variants:
`fastapi-ghosttube-v-3.py`, called "v3" below, and `GT-v4-fastapi.py`,
called "v4" below) together with proofs about the job-state machine,
the per-item retry loop, the rate limiter, the search fallback chain,
the worker-pool sizing and the progress endpoint.

Modelling conventions:
* wall-clock time is an explicit `Nat` parameter (`now`, seconds); the code's
  `time.time()` reads become uses of that parameter, and `time.sleep(d)`
  advances it by `d`;
* fields of the Python dataclasses whose values are environment noise
  (`size_mb`, `ip`, `timestamp`) are omitted; `duration` is omitted for the
  same reason (it never appears in a verified property);
* `int((a / b) * 100)` on small counters is modelled as `Nat` floor division
  `a * 100 / b` (IEEE rounding of the intermediate float is abstracted away;
  no theorem below depends on an exact nonzero percentage);
* a raised exception is an `Except.error` / a dedicated constructor;
* the external `yt_dlp` subprocess is an oracle `outs : Nat → AttemptOut`
  giving the outcome of each attempt of the per-item retry loop.
-/

/-! ## Constants (v3, CONFIG & CONSTANTS section, lines 83–95) -/

def MAX_CONCURRENT_DOWNLOADS : Nat := 3

def MAX_RETRIES : Nat := 3

def INITIAL_BACKOFF : Nat := 2

def MAX_BACKOFF : Nat := 60

def RATE_LIMIT_THRESHOLD : Nat := 3

/-! ## RateLimitTracker (v3, lines 101–129) -/

/-- v3 `RateLimitTracker` dataclass: consecutive-429 counter, last-429
timestamp, backoff deadline and the IP-rotation flag.  The dataclass default
values become the `init` constant below. -/
structure RateLimitTracker where
  consecutive_429s : Nat := 0
  last_429_time : Nat := 0
  backoff_until : Nat := 0
  ip_rotation_needed : Bool := false
deriving Repr, DecidableEq

/-- `RateLimitTracker()` with all dataclass defaults (the process-wide
`rate_limiter` global is created this way). -/
def RateLimitTracker.init : RateLimitTracker := {}

/-- v3 `RateLimitTracker.record_429` (lines 109–118): increment the counter,
stamp the time, raise the rotation flag once the counter reaches
`RATE_LIMIT_THRESHOLD`, and set `backoff_until` to
`now + min (INITIAL_BACKOFF * 2 ^ (count - 1)) MAX_BACKOFF`. -/
def record_429 (now : Nat) (t : RateLimitTracker) : RateLimitTracker :=
  let c := t.consecutive_429s + 1
  let rot := if RATE_LIMIT_THRESHOLD ≤ c then true else t.ip_rotation_needed
  let backoff := min (INITIAL_BACKOFF * 2 ^ (c - 1)) MAX_BACKOFF
  { consecutive_429s := c
    last_429_time := now
    backoff_until := now + backoff
    ip_rotation_needed := rot }

/-- v3 `RateLimitTracker.record_success` (lines 120–122): reset the counter
and the rotation flag (the backoff deadline is left untouched). -/
def record_success (t : RateLimitTracker) : RateLimitTracker :=
  { t with consecutive_429s := 0, ip_rotation_needed := false }

/-- v3 `RateLimitTracker.should_wait` (lines 124–129): whether `now` is still
before the backoff deadline, and the remaining wait. -/
def should_wait (now : Nat) (t : RateLimitTracker) : Bool × Nat :=
  if now < t.backoff_until then (true, t.backoff_until - now) else (false, 0)

/-! ## String utilities (v3, lines 200–203 and the substring classifiers) -/

/-- Characters removed by the first `re.sub` of v3 `sanitize_name`
(line 201): `[<>:"/\\|?*\n\r\t]`. -/
def badChar (c : Char) : Bool :=
  c = '<' || c = '>' || c = ':' || c = '"' || c = '/' || c = '\\' || c = '|' ||
  c = '?' || c = '*' || c = '\n' || c = '\r' || c = '\t'

/-- ASCII whitespace, the characters matched by Python's `\s` and stripped by
`str.strip` (non-ASCII Unicode whitespace is outside the model). -/
def pyWs (c : Char) : Bool :=
  c = ' ' || c = '\t' || c = '\n' || c = '\r' || c = '\x0b' || c = '\x0c'

/-- Python `str.strip`: drop leading and trailing whitespace. -/
def pyStrip (l : List Char) : List Char :=
  ((l.dropWhile pyWs).reverse.dropWhile pyWs).reverse

/-- Python `re.sub(r'\s+', '_', ·)`: replace every maximal whitespace run by a
single `'_'`.  The Boolean argument records whether the previous character was
whitespace (i.e. whether we are inside a run). -/
def collapseWs : Bool → List Char → List Char
  | _, [] => []
  | prevWs, c :: rest =>
    if pyWs c then
      if prevWs then collapseWs true rest
      else '_' :: collapseWs true rest
    else c :: collapseWs false rest

/-- The two `re.sub` passes of v3 `sanitize_name` (lines 201–202) on the
character list. -/
def sanitizeChars (l : List Char) : List Char :=
  collapseWs false (pyStrip (l.filter (fun c => !badChar c)))

/-- v3 `sanitize_name` (lines 200–203) at the default `max_len = 80` used by
every caller: strip the forbidden characters, collapse whitespace to `'_'`,
then truncate to 80 characters, or return `'search_results'` when nothing is
left. -/
def sanitize_name (s : String) : String :=
  let l := sanitizeChars s.data
  if l = [] then "search_results" else ⟨l.take 80⟩

/-- Python slicing `s[:n]` on a string. -/
def truncate (n : Nat) (s : String) : String := ⟨s.data.take n⟩

/-- Whether `needle` is a prefix of the second list (helper for Python's
`in` substring test). -/
def firstMatches : List Char → List Char → Bool
  | [], _ => true
  | _ :: _, [] => false
  | a :: as, b :: bs => a == b && firstMatches as bs

/-- Whether `needle` occurs as a contiguous substring. -/
def containsSub (needle : List Char) : List Char → Bool
  | [] => firstMatches needle []
  | c :: rest => firstMatches needle (c :: rest) || containsSub needle rest

/-- Python `needle in hay` on strings. -/
def strContains (hay needle : String) : Bool := containsSub needle.data hay.data

/-- v3 line 490: `'429' in error_msg or 'Too Many Requests' in error_msg`. -/
def is429 (msg : String) : Bool :=
  strContains msg "429" || strContains msg "Too Many Requests"

/-- v3 line 505: `any(x in error_msg for x in ['Video unavailable', 'not available'])`. -/
def isUnavailableMsg (msg : String) : Bool :=
  strContains msg "Video unavailable" || strContains msg "not available"

/-- v3 line 512: `any(x in error_msg for x in ['age-restricted', 'Sign in'])`. -/
def isRestrictedMsg (msg : String) : Bool :=
  strContains msg "age-restricted" || strContains msg "Sign in"

/-! ## Per-item retry loop — v3 `download_video` (lines 401–559) -/

/-- Outcome of running the (up to three) `yt_dlp` subprocess calls of one
attempt, as seen by the `try`/`except` clauses of v3 `download_video`:
all calls succeeded, a `CalledProcessError` with the given stderr text,
a `TimeoutExpired`, or any other exception with its string rendering. -/
inductive AttemptOut where
  | ok : AttemptOut
  | procErr (msg : String) : AttemptOut
  | timeout : AttemptOut
  | exc (msg : String) : AttemptOut
deriving Repr, DecidableEq

/-- v3 `DownloadResult` dataclass (lines 160–170), restricted to the fields
the verified properties talk about (`duration`, `size_mb`, `ip`, `timestamp`
are wall-clock / environment noise and are omitted). -/
structure DownloadResult where
  url : String
  title : String
  status : String
  error : Option String := none
  retries : Nat := 0
deriving Repr, DecidableEq

/-- The `status='success'` result of v3 line 478. -/
def mkSuccess (url title : String) (retries : Nat) : DownloadResult :=
  { url := url, title := title, status := "success", error := none, retries := retries }

/-- A `status='failed'` result with the given error text. -/
def mkFailed (url title err : String) (retries : Nat) : DownloadResult :=
  { url := url, title := title, status := "failed", error := some err, retries := retries }

/-- Everything the retry loop produced: the returned `DownloadResult`, the
final rate-limiter state, how many attempts were run, the rate-limit gate
waits (v3 line 435), the retry backoff sleeps (v3 lines 502/522/535/547),
and whether the unreachable post-loop return of line 555 was taken. -/
structure LoopLog where
  result : DownloadResult
  limiter : RateLimitTracker
  attemptsMade : Nat
  waitSleeps : List Nat
  retrySleeps : List Nat
  exhausted : Bool
deriving Repr, DecidableEq

/-- The body of v3 `download_video`'s `for attempt in range(MAX_RETRIES)` loop
(lines 430–553), plus the post-loop return (lines 555–559, the `fuel = 0`
case).  `fuel` is the number of loop iterations still permitted
(`MAX_RETRIES - attempt`), `attempt` the 0-based iteration index, `retries`
the mutable counter of the same name, `outs i` the outcome of attempt `i`,
and `now` the current time (sleeps advance it). -/
def dlGo (url title : String) (outs : Nat → AttemptOut) :
    Nat → Nat → Nat → Nat → RateLimitTracker → List Nat → List Nat → LoopLog
  | 0, attempt, retries, _now, t, waits, bsleeps =>
      { result := mkFailed url title "Max retries exceeded" retries
        limiter := t, attemptsMade := attempt
        waitSleeps := waits, retrySleeps := bsleeps, exhausted := true }
  | fuel + 1, attempt, retries, now, t, waits, bsleeps =>
      let w := should_wait now t
      let now1 := if w.1 then now + w.2 else now
      let waits1 := if w.1 then waits ++ [w.2] else waits
      match outs attempt with
      | .ok =>
          { result := mkSuccess url title retries, limiter := record_success t
            attemptsMade := attempt + 1
            waitSleeps := waits1, retrySleeps := bsleeps, exhausted := false }
      | .procErr msg =>
          let r1 := retries + 1
          if is429 msg then
            let t1 := record_429 now1 t
            if t1.ip_rotation_needed then
              { result := mkFailed url title "Rate limited - IP rotation needed" r1
                limiter := t1, attemptsMade := attempt + 1
                waitSleeps := waits1, retrySleeps := bsleeps, exhausted := false }
            else if attempt < MAX_RETRIES - 1 then
              dlGo url title outs fuel (attempt + 1) r1
                (now1 + INITIAL_BACKOFF * 2 ^ attempt) t1 waits1
                (bsleeps ++ [INITIAL_BACKOFF * 2 ^ attempt])
            else if isUnavailableMsg msg then
              { result := mkFailed url title "Video unavailable" r1
                limiter := t1, attemptsMade := attempt + 1
                waitSleeps := waits1, retrySleeps := bsleeps, exhausted := false }
            else if isRestrictedMsg msg then
              { result := mkFailed url title "Age-restricted (need cookies)" r1
                limiter := t1, attemptsMade := attempt + 1
                waitSleeps := waits1, retrySleeps := bsleeps, exhausted := false }
            else
              { result := mkFailed url title (truncate 150 msg) r1
                limiter := t1, attemptsMade := attempt + 1
                waitSleeps := waits1, retrySleeps := bsleeps, exhausted := false }
          else if isUnavailableMsg msg then
            { result := mkFailed url title "Video unavailable" r1
              limiter := t, attemptsMade := attempt + 1
              waitSleeps := waits1, retrySleeps := bsleeps, exhausted := false }
          else if isRestrictedMsg msg then
            { result := mkFailed url title "Age-restricted (need cookies)" r1
              limiter := t, attemptsMade := attempt + 1
              waitSleeps := waits1, retrySleeps := bsleeps, exhausted := false }
          else if attempt < MAX_RETRIES - 1 then
            dlGo url title outs fuel (attempt + 1) r1
              (now1 + INITIAL_BACKOFF * 2 ^ attempt) t waits1
              (bsleeps ++ [INITIAL_BACKOFF * 2 ^ attempt])
          else
            { result := mkFailed url title (truncate 150 msg) r1
              limiter := t, attemptsMade := attempt + 1
              waitSleeps := waits1, retrySleeps := bsleeps, exhausted := false }
      | .timeout =>
          let r1 := retries + 1
          if attempt < MAX_RETRIES - 1 then
            dlGo url title outs fuel (attempt + 1) r1
              (now1 + INITIAL_BACKOFF * 2 ^ attempt) t waits1
              (bsleeps ++ [INITIAL_BACKOFF * 2 ^ attempt])
          else
            { result := mkFailed url title "Timeout - video too large or connection slow" r1
              limiter := t, attemptsMade := attempt + 1
              waitSleeps := waits1, retrySleeps := bsleeps, exhausted := false }
      | .exc msg =>
          let r1 := retries + 1
          if attempt < MAX_RETRIES - 1 then
            dlGo url title outs fuel (attempt + 1) r1
              (now1 + INITIAL_BACKOFF * 2 ^ attempt) t waits1
              (bsleeps ++ [INITIAL_BACKOFF * 2 ^ attempt])
          else
            { result := mkFailed url title (truncate 150 msg) r1
              limiter := t, attemptsMade := attempt + 1
              waitSleeps := waits1, retrySleeps := bsleeps, exhausted := false }

/-- v3 `download_video` (lines 401–559): run the retry loop from attempt 0
with `retries = 0` on the given attempt oracle, starting at time `now` with
rate-limiter state `t`. -/
def download_video (url title : String) (outs : Nat → AttemptOut)
    (now : Nat) (t : RateLimitTracker) : LoopLog :=
  dlGo url title outs MAX_RETRIES 0 0 now t [] []

/-! ## Job state and the v3 worker (`_download_worker`, lines 565–654) -/

/-- v3 `JobState` dataclass (lines 172–183); `start_time` is the creation
time in seconds. -/
structure JobState where
  job_id : String
  query : String
  status : String
  progress : Nat := 0
  message : String := ""
  total_videos : Nat := 0
  completed_videos : Nat := 0
  failed_videos : Nat := 0
  start_time : Nat := 0
  results : List DownloadResult := []
deriving Repr, DecidableEq

/-- The `JobState(job_id=..., query=..., status='queued')` created by v3
`api_download` (lines 773–777). -/
def initJob (job_id query : String) (start_time : Nat) : JobState :=
  { job_id := job_id, query := query, status := "queued", start_time := start_time }

/-- Whether a status string is terminal in the v3/v4 job state machine. -/
def isTerminal (status : String) : Bool :=
  status == "complete" || status == "failed"

/-- One iteration of v3 `_download_worker`'s `as_completed` loop
(lines 613–624): append the finished item's result, bump the matching
counter (`if status == 'success'` / `elif status == 'failed'`), and
recompute progress and message.  `n` is `len(results)`, the number of
submitted URLs; the loop-local `completed` counter always equals
`len(job.results)` right after the append (both start at zero and are
bumped exactly once per iteration), so it is modelled that way. -/
def jobUpdate (n : Nat) (job : JobState) (r : DownloadResult) : JobState :=
  let results1 := job.results ++ [r]
  let c := if r.status == "success" then job.completed_videos + 1 else job.completed_videos
  let f := if r.status == "success" then job.failed_videos
           else if r.status == "failed" then job.failed_videos + 1 else job.failed_videos
  let completed := results1.length
  { job with
    results := results1, completed_videos := c, failed_videos := f,
    progress := completed * 100 / n,
    message := "Downloaded " ++ toString completed ++ "/" ++ toString n ++
      " (✓" ++ toString c ++ " ✗" ++ toString f ++ ")" }

/-- The whole `as_completed` collection loop of v3 `_download_worker`:
fold `jobUpdate` over the items' results in the order the futures complete
(`as_completed` yields completion order, not submission order).  The IP
rotation branch of lines 627–632 mutates only `job.message` and the shared
limiter, never the counters or results, and is not part of the counter
model. -/
def runItems (n : Nat) (job : JobState) (completionOrder : List DownloadResult) : JobState :=
  completionOrder.foldl (jobUpdate n) job

/-- v3 `_download_worker` lines 634–636: mark the job complete once the pool
has drained. -/
def finishJob (job : JobState) : JobState :=
  { job with
    status := "complete", progress := 100,
    message := "Complete! ✓" ++ toString job.completed_videos ++
      " successful, ✗" ++ toString job.failed_videos ++ " failed" }

/-! ## Search fallback chain — v3 `search_youtube` (lines 287–309) -/

/-- v3 `search_youtube` (lines 287–309) over the outcomes of its four
fallback methods (yt-dlp, DuckDuckGo, Direct YouTube, Bing): `none` is a
method that raised, `some l` a method that returned `l`.  A method's result
is returned (truncated to `max_results`) only when it is non-empty
(`if results:`); when every method raises or returns an empty list the
function raises `Exception("All search methods failed")`. -/
def search_youtube (max_results : Nat) :
    List (Option (List String)) → Except String (List String)
  | [] => .error "All search methods failed"
  | none :: rest => search_youtube max_results rest
  | some [] :: rest => search_youtube max_results rest
  | some (u :: us) :: _rest => .ok ((u :: us).take max_results)

/-! ## v3 request model and the worker's resolution phase -/

/-- v3 `DownloadRequest` pydantic model (lines 149–158); the `format` enum
value is kept as its string. -/
structure DownloadRequest where
  query : String
  audio : Bool := true
  video : Bool := false
  transcripts : Bool := false
  format : String := "mp3"
  max_results : Nat := 50
  concurrent_downloads : Nat := 3
  is_url : Bool := false
  urls : Option (List String) := none
deriving Repr, DecidableEq

/-- Python `str.strip` on a `String`. -/
def pyStripStr (s : String) : String := ⟨pyStrip s.data⟩

/-- The message `f'Error: {str(e)[:100]}'` set by v3 `_download_worker`'s
`except` handler (line 654). -/
def errorMessage (e : String) : String :=
  ⟨'E' :: 'r' :: 'r' :: 'o' :: 'r' :: ':' :: ' ' :: e.data.take 100⟩

/-- Result of the resolution phase of v3 `_download_worker`: either the
worker returned (or raised) before starting the thread pool, leaving the job
in the given state, or it reached line 597 and starts the pool on `urls`. -/
inductive ResolveOutcome where
  | failedJob (job : JobState) : ResolveOutcome
  | startPool (job : JobState) (urls : List String) : ResolveOutcome
deriving Repr, DecidableEq

/-- v3 `_download_worker` lines 587–592: set `total_videos` and fail with
`'No videos found'` when the resolved list is empty, otherwise proceed to
the pool. -/
def afterResolve (job : JobState) (results : List String) : ResolveOutcome :=
  let job1 := { job with total_videos := results.length }
  if results.length = 0 then
    .failedJob { job1 with status := "failed", message := "No videos found" }
  else
    .startPool job1 results

/-- The resolution phase of v3 `_download_worker` (lines 569–592), including
the `except` handler of lines 651–654 for the case where `search_youtube`
raises: mark the job `downloading`, resolve the URL list from `req.urls`,
`req.is_url` or the search chain, then hand over to `afterResolve`. -/
def resolvePhase (job0 : JobState) (req : DownloadRequest)
    (searchOuts : List (Option (List String))) : ResolveOutcome :=
  let job := { job0 with status := "downloading" }
  match req.urls with
  | some (u :: us) =>
      afterResolve
        { job with message := "Downloading " ++ toString (u :: us).length ++ " video(s)..." }
        (u :: us)
  | _ =>
    if req.is_url then
      afterResolve { job with message := "Downloading video..." } [pyStripStr req.query]
    else
      let job1 := { job with message := "Searching for videos..." }
      match search_youtube req.max_results searchOuts with
      | .error e => .failedJob { job1 with status := "failed", message := errorMessage e }
      | .ok results => afterResolve job1 results

/-! ## Worker pool sizing -/

/-- v3 `_download_worker` line 597:
`ThreadPoolExecutor(max_workers=min(req.concurrent_downloads, MAX_CONCURRENT_DOWNLOADS))`. -/
def v3_pool_max_workers (req : DownloadRequest) : Nat :=
  min req.concurrent_downloads MAX_CONCURRENT_DOWNLOADS

/-- v4 `process_download_job` line 305:
`ThreadPoolExecutor(max_workers=concurrent)` — the request's
`concurrent_downloads` value is passed through with no clamp. -/
def v4_pool_max_workers (concurrent : Nat) : Nat := concurrent

/-! ## v3 progress endpoint — `api_progress` (lines 791–808) -/

/-- The JSON object returned by v3 `api_progress`. -/
structure ProgressResponse where
  job_id : String
  status : String
  progress : Nat
  message : String
  total_videos : Nat
  completed : Nat
  failed : Nat
  elapsed : Nat
  start_time : Nat
  results : List DownloadResult
deriving Repr, DecidableEq

/-- v3 `api_progress` (lines 791–808): 404 (`none`) for an unknown job id;
otherwise a snapshot of the stored job, with `elapsed` computed from the
current clock (`time.time() - job.start_time`) and `results` included only
when the status is `'complete'`. -/
def api_progress (jobs : List (String × JobState)) (job_id : String) (now : Nat) :
    Option ProgressResponse :=
  match jobs.lookup job_id with
  | none => none
  | some job => some
    { job_id := job_id, status := job.status, progress := job.progress
      message := job.message, total_videos := job.total_videos
      completed := job.completed_videos, failed := job.failed_videos
      elapsed := now - job.start_time, start_time := job.start_time
      results := if job.status == "complete" then job.results else [] }

/-- Zero out the `elapsed` field of a v3 progress response (the one field
computed from the poll-time clock). -/
def eraseElapsed (r : ProgressResponse) : ProgressResponse := { r with elapsed := 0 }

/-! ## v4 job dict, collection loop and progress endpoint -/

/-- The v4 per-job dict created by `api_download` (lines 478–490) and
mutated by `process_download_job`. -/
structure V4Job where
  job_id : String
  query : String
  status : String
  progress : Nat := 0
  message : String := ""
  total_videos : Nat := 0
  completed_videos : Nat := 0
  failed_videos : Nat := 0
  start_time : Nat := 0
  elapsed : Nat := 0
  results : List DownloadResult := []
deriving Repr, DecidableEq

/-- One iteration of v4 `process_download_job`'s collection loop
(lines 316–326): append, bump `completed_videos` on `'success'` and
`failed_videos` otherwise (plain `else`, no `elif`), recompute progress
as `int((completed + failed) / total * 100)` and the message. -/
def v4_jobUpdate (job : V4Job) (r : DownloadResult) : V4Job :=
  let results1 := job.results ++ [r]
  let c := if r.status == "success" then job.completed_videos + 1 else job.completed_videos
  let f := if r.status == "success" then job.failed_videos else job.failed_videos + 1
  { job with
    results := results1, completed_videos := c, failed_videos := f,
    progress := (c + f) * 100 / job.total_videos,
    message := "Completed " ++ toString c ++ "/" ++ toString job.total_videos ++ " videos" }

/-- The v4 collection loop (lines 316–326): `for future in futures` iterates
the futures **in submission order** (no `as_completed`), so the results are
appended in submission order regardless of which item finished first. -/
def v4_collect (job : V4Job) (submissionOrder : List DownloadResult) : V4Job :=
  submissionOrder.foldl v4_jobUpdate job

/-- The JSON object returned by v4 `get_progress` (`ProgressResponse`
pydantic model, lines 366–376). -/
structure V4ProgressResponse where
  job_id : String
  query : String
  status : String
  progress : Nat
  message : String
  total_videos : Nat
  completed_videos : Nat
  failed_videos : Nat
  elapsed : Nat
  results : Option (List DownloadResult)
deriving Repr, DecidableEq

/-- v4 `get_progress` (lines 512–529): 404 (`none`) for an unknown job id;
otherwise a pure function of the stored job dict — `elapsed` is the stored
`job['elapsed']` field, not a clock read, and `results` is included only
when the status is `'complete'`. -/
def v4_get_progress (jobs : List (String × V4Job)) (job_id : String) :
    Option V4ProgressResponse :=
  match jobs.lookup job_id with
  | none => none
  | some job => some
    { job_id := job.job_id, query := job.query, status := job.status
      progress := job.progress, message := job.message
      total_videos := job.total_videos, completed_videos := job.completed_videos
      failed_videos := job.failed_videos, elapsed := job.elapsed
      results := if job.status == "complete" then some job.results else none }

/-- v4 `process_download_job` lines 328–330: mark the job complete, store the
final elapsed time and the completion message. -/
def v4_finishJob (now : Nat) (job : V4Job) : V4Job :=
  { job with
    status := "complete", elapsed := now - job.start_time,
    message := "Download complete: " ++ toString job.completed_videos ++
      " succeeded, " ++ toString job.failed_videos ++ " failed" }

/-! ## Concrete sample data used by the counterexamples and witnesses -/

/-- A successful item result. -/
def demoResult : DownloadResult :=
  mkSuccess "https://www.youtube.com/watch?v=a" "Title" 0

/-- A failed item result. -/
def demoFailed : DownloadResult :=
  mkFailed "https://www.youtube.com/watch?v=b" "Title2" "Video unavailable" 1

/-- The job state v3 `_download_worker` hands to the thread pool for a
direct-URLs request with one URL (what `resolvePhase` returns in its
`startPool` case). -/
def poolJob : JobState :=
  { job_id := "j", query := "q", status := "downloading",
    message := "Downloading 1 video(s)...", total_videos := 1 }

/-- `poolJob` after its single item completed and the worker finished:
a terminal (`complete`) job. -/
def completeJob : JobState :=
  finishJob (runItems 1 poolJob [demoResult])

/-- A two-item job mid-download: one item already collected, one still
running (status `'downloading'`). -/
def downloadingJob : JobState :=
  runItems 2 { poolJob with total_videos := 2 } [demoResult]

/-! ## Helper lemmas -/

lemma collapseWs_mem {c : Char} :
    ∀ (b : Bool) (l : List Char), c ∈ collapseWs b l → (c = '_' ∨ c ∈ l) ∧ pyWs c = false := by
  intro b l
  induction l generalizing b with
  | nil => intro h; simp [collapseWs] at h
  | cons a rest ih =>
    intro h
    by_cases hw : pyWs a
    · simp only [collapseWs, hw, if_true] at h
      cases b with
      | true =>
        rcases ih true h with ⟨h1, h2⟩
        exact ⟨h1.imp id (List.mem_cons_of_mem a), h2⟩
      | false =>
        rcases List.mem_cons.mp h with h | h
        · subst h; exact ⟨Or.inl rfl, by decide⟩
        · rcases ih true h with ⟨h1, h2⟩
          exact ⟨h1.imp id (List.mem_cons_of_mem a), h2⟩
    · simp only [collapseWs, hw, if_false] at h
      rcases List.mem_cons.mp h with h | h
      · subst h
        exact ⟨Or.inr (List.mem_cons_self c rest), by simpa using hw⟩
      · rcases ih false h with ⟨h1, h2⟩
        exact ⟨h1.imp id (List.mem_cons_of_mem a), h2⟩

lemma pyStrip_subset {c : Char} {l : List Char} (h : c ∈ pyStrip l) : c ∈ l := by
  unfold pyStrip at h
  rw [List.mem_reverse] at h
  have h1 := (List.dropWhile_sublist pyWs).subset h
  rw [List.mem_reverse] at h1
  exact (List.dropWhile_sublist pyWs).subset h1

lemma sanitizeChars_mem {c : Char} {l : List Char} (h : c ∈ sanitizeChars l) :
    badChar c = false ∧ pyWs c = false := by
  rcases collapseWs_mem false _ h with ⟨h1, h2⟩
  refine ⟨?_, h2⟩
  rcases h1 with rfl | h1
  · decide
  · have := List.of_mem_filter (pyStrip_subset h1 : c ∈ (l.filter (fun c => !badChar c)))
    simpa using this

lemma search_youtube_ok_ne_nil (max_results : Nat) (hmax : 1 ≤ max_results) :
    ∀ (outs : List (Option (List String))) (l : List String),
      search_youtube max_results outs = .ok l → l ≠ [] := by
  intro outs
  induction outs with
  | nil => intro l h; simp [search_youtube] at h
  | cons o rest ih =>
    intro l h
    match o with
    | none => exact ih l h
    | some [] => exact ih l h
    | some (u :: us) =>
      simp only [search_youtube, Except.ok.injEq] at h
      subst h
      simp [List.take_eq_nil_iff]
      omega

lemma errorMessage_ne_noVideos (e : String) : errorMessage e ≠ "No videos found" := by
  intro h
  rw [String.ext_iff] at h
  have hd : "No videos found".data
      = ['N','o',' ','v','i','d','e','o','s',' ','f','o','u','n','d'] := by rfl
  rw [hd] at h
  simp only [errorMessage] at h
  exact absurd (List.cons.inj h).1 (by decide)

lemma jobUpdate_fields (n : Nat) (job : JobState) (r : DownloadResult) :
    (jobUpdate n job r).results = job.results ++ [r] ∧
    (jobUpdate n job r).status = job.status ∧
    (jobUpdate n job r).total_videos = job.total_videos ∧
    (jobUpdate n job r).job_id = job.job_id ∧
    (jobUpdate n job r).query = job.query ∧
    (jobUpdate n job r).start_time = job.start_time := by
  simp [jobUpdate]

lemma runItems_fields (n : Nat) (rs : List DownloadResult) :
    ∀ job : JobState,
      (runItems n job rs).results = job.results ++ rs ∧
      (runItems n job rs).status = job.status ∧
      (runItems n job rs).total_videos = job.total_videos ∧
      (runItems n job rs).job_id = job.job_id ∧
      (runItems n job rs).query = job.query ∧
      (runItems n job rs).start_time = job.start_time := by
  induction rs with
  | nil => intro job; simp [runItems]
  | cons r rest ih =>
    intro job
    have hstep := jobUpdate_fields n job r
    have htail := ih (jobUpdate n job r)
    simp only [runItems, List.foldl_cons] at *
    refine ⟨?_, ?_, ?_, ?_, ?_, ?_⟩ <;>
      simp [htail.1, htail.2.1, htail.2.2.1, htail.2.2.2.1, htail.2.2.2.2.1,
        htail.2.2.2.2.2, hstep.1, hstep.2.1, hstep.2.2.1, hstep.2.2.2.1,
        hstep.2.2.2.2.1, hstep.2.2.2.2.2]

lemma runItems_counts (n : Nat) (rs : List DownloadResult)
    (hst : ∀ r ∈ rs, r.status = "success" ∨ r.status = "failed") :
    ∀ job : JobState,
      (runItems n job rs).completed_videos + (runItems n job rs).failed_videos
        = job.completed_videos + job.failed_videos + rs.length := by
  induction rs with
  | nil => intro job; simp [runItems]
  | cons r rest ih =>
    intro job
    have hr := hst r (List.mem_cons_self r rest)
    have htail := ih (fun x hx => hst x (List.mem_cons_of_mem r hx)) (jobUpdate n job r)
    simp only [runItems, List.foldl_cons] at *
    rw [htail]
    rcases hr with hr | hr <;> simp [jobUpdate, hr] <;> omega

lemma v4_jobUpdate_fields (job : V4Job) (r : DownloadResult) :
    (v4_jobUpdate job r).results = job.results ++ [r] ∧
    (v4_jobUpdate job r).status = job.status ∧
    (v4_jobUpdate job r).total_videos = job.total_videos ∧
    (v4_jobUpdate job r).completed_videos + (v4_jobUpdate job r).failed_videos
      = job.completed_videos + job.failed_videos + 1 := by
  by_cases h : r.status == "success" <;> simp [v4_jobUpdate, h] <;> omega

lemma v4_collect_spec (rs : List DownloadResult) :
    ∀ job : V4Job,
      (v4_collect job rs).results = job.results ++ rs ∧
      (v4_collect job rs).status = job.status ∧
      (v4_collect job rs).total_videos = job.total_videos ∧
      (v4_collect job rs).completed_videos + (v4_collect job rs).failed_videos
        = job.completed_videos + job.failed_videos + rs.length := by
  induction rs with
  | nil => intro job; simp [v4_collect]
  | cons r rest ih =>
    intro job
    have hstep := v4_jobUpdate_fields job r
    have htail := ih (v4_jobUpdate job r)
    simp only [v4_collect, List.foldl_cons] at *
    refine ⟨?_, ?_, ?_, ?_⟩
    · rw [htail.1, hstep.1]; simp
    · rw [htail.2.1, hstep.2.1]
    · rw [htail.2.2.1, hstep.2.2.1]
    · rw [htail.2.2.2, hstep.2.2.2]; simp; omega

lemma dlGo_attempts (url title : String) (outs : Nat → AttemptOut) :
    ∀ (fuel attempt retries now : Nat) (t : RateLimitTracker) (waits bsleeps : List Nat),
      (dlGo url title outs fuel attempt retries now t waits bsleeps).attemptsMade
        ≤ attempt + fuel := by
  intro fuel
  induction fuel with
  | zero =>
    intro attempt retries now t waits bsleeps
    simp [dlGo]
  | succ fuel ih =>
    intro attempt retries now t waits bsleeps
    cases houts : outs attempt <;>
      simp only [dlGo, houts] <;>
      (repeat' split) <;>
      first
        | simp
        | exact le_trans (ih _ _ _ _ _ _) (by omega)

lemma dlGo_not_exhausted (url title : String) (outs : Nat → AttemptOut) :
    ∀ (fuel attempt retries now : Nat) (t : RateLimitTracker) (waits bsleeps : List Nat),
      fuel + attempt = MAX_RETRIES → 0 < fuel →
      (dlGo url title outs fuel attempt retries now t waits bsleeps).exhausted = false := by
  intro fuel
  induction fuel with
  | zero => intro attempt retries now t waits bsleeps _ h; omega
  | succ fuel ih =>
    intro attempt retries now t waits bsleeps hsum _
    have hsum2 : fuel + 1 + attempt = 3 := hsum
    cases houts : outs attempt <;>
      simp only [dlGo, houts] <;>
      (repeat' split) <;>
      first
        | simp
        | (have hlt : attempt < MAX_RETRIES - 1 := by assumption
           have hlt2 : attempt < 2 := hlt
           exact ih (attempt + 1) _ _ _ _ _
             ((by omega : fuel + (attempt + 1) = 3)) (by omega))

lemma dlGo_failed_of_no_ok (url title : String) (outs : Nat → AttemptOut)
    (hok : ∀ i, outs i ≠ AttemptOut.ok) :
    ∀ (fuel attempt retries now : Nat) (t : RateLimitTracker) (waits bsleeps : List Nat),
      (dlGo url title outs fuel attempt retries now t waits bsleeps).result.status
        = "failed" := by
  intro fuel
  induction fuel with
  | zero => intro attempt retries now t waits bsleeps; simp [dlGo, mkFailed]
  | succ fuel ih =>
    intro attempt retries now t waits bsleeps
    cases houts : outs attempt with
    | ok => exact absurd houts (hok attempt)
    | procErr msg =>
      (simp only [dlGo, houts]; repeat' split) <;>
        first
          | simp [mkFailed]
          | exact ih _ _ _ _ _ _
    | timeout =>
      (simp only [dlGo, houts]; repeat' split) <;>
        first
          | simp [mkFailed]
          | exact ih _ _ _ _ _ _
    | exc msg =>
      (simp only [dlGo, houts]; repeat' split) <;>
        first
          | simp [mkFailed]
          | exact ih _ _ _ _ _ _

/-! ## Claim theorems -/

/-- C2: `record_429` increments the consecutive-throttle count, stamps the
last-throttle time, sets the rotation-needed flag once the (new) count
reaches the threshold 3, and sets the backoff deadline to
`now + min (2 * 2 ^ (count - 1)) 60` seconds; `record_success` resets the
count to 0 and the rotation-needed flag to `false`. -/
theorem record429_recordSuccess_contract (now : Nat) (t : RateLimitTracker) :
    (record_429 now t).consecutive_429s = t.consecutive_429s + 1 ∧
    (record_429 now t).last_429_time = now ∧
    (RATE_LIMIT_THRESHOLD ≤ t.consecutive_429s + 1 →
      (record_429 now t).ip_rotation_needed = true) ∧
    (record_429 now t).backoff_until =
      now + min (INITIAL_BACKOFF * 2 ^ (t.consecutive_429s + 1 - 1)) MAX_BACKOFF ∧
    (record_success t).consecutive_429s = 0 ∧
    (record_success t).ip_rotation_needed = false := by
  refine ⟨rfl, rfl, ?_, rfl, rfl, rfl⟩
  intro h
  simp [record_429, h]

/-- Witness for C2: a third consecutive throttle at time 5 sets the count
to 3, the flag, and a `5 + min (2 * 2 ^ 2) 60 = 13` deadline. -/
theorem record429_recordSuccess_contract_witness :
    (record_429 5 { RateLimitTracker.init with consecutive_429s := 2 }).consecutive_429s = 3 ∧
    (record_429 5 { RateLimitTracker.init with consecutive_429s := 2 }).ip_rotation_needed
      = true ∧
    (record_429 5 { RateLimitTracker.init with consecutive_429s := 2 }).backoff_until = 13 := by
  have h := record429_recordSuccess_contract 5
    { RateLimitTracker.init with consecutive_429s := 2 }
  exact ⟨h.1, h.2.2.1 (by decide), h.2.2.2.1⟩

/-- C10: for every input string, `sanitize_name` returns a non-empty string
of at most 80 characters containing none of the characters
`< > : " / \ | ? *` (nor tab/newline/carriage return) and no whitespace;
when the input reduces to nothing the result is exactly `'search_results'`. -/
theorem sanitize_name_spec (s : String) :
    sanitize_name s ≠ "" ∧
    (sanitize_name s).length ≤ 80 ∧
    (∀ c ∈ (sanitize_name s).data, badChar c = false ∧ pyWs c = false) ∧
    (sanitizeChars s.data = [] → sanitize_name s = "search_results") := by
  by_cases h : sanitizeChars s.data = []
  · refine ⟨?_, ?_, ?_, fun _ => ?_⟩ <;> simp [sanitize_name, h]
    · decide
    · decide
  · refine ⟨?_, ?_, ?_, fun hc => absurd hc h⟩
    · simp only [sanitize_name, if_neg h]
      intro hcon
      rw [String.ext_iff] at hcon
      simp only [List.take_eq_nil_iff] at hcon
      rcases hcon with hcon | hcon
      · exact absurd hcon (by decide)
      · exact h hcon
    · simp only [sanitize_name, if_neg h, String.length]
      rw [List.length_take]
      omega
    · simp only [sanitize_name, if_neg h]
      intro c hc
      exact sanitizeChars_mem (List.take_subset 80 _ hc)

/-- Witness for C10: an input that reduces to nothing returns
`'search_results'`, and an ordinary title is cleaned up. -/
theorem sanitize_name_spec_witness :
    sanitize_name " ?*< " = "search_results" := by
  exact (sanitize_name_spec " ?*< ").2.2.2 (by decide)

/-- C3 counterexample: on an item whose (first) attempt diagnostic reports
`'Video unavailable'`, v3 `download_video` does terminate immediately with a
failed result and error `'Video unavailable'`, but the stored `retries`
field is 1, not 0: line 487 increments `retries` on every
`CalledProcessError` before the classification of line 505 runs. -/
theorem unavailable_retries_counterexample :
    (download_video "u" "t" (fun _ => AttemptOut.procErr "ERROR: Video unavailable") 0
      RateLimitTracker.init).result.status = "failed" ∧
    (download_video "u" "t" (fun _ => AttemptOut.procErr "ERROR: Video unavailable") 0
      RateLimitTracker.init).result.error = some "Video unavailable" ∧
    (download_video "u" "t" (fun _ => AttemptOut.procErr "ERROR: Video unavailable") 0
      RateLimitTracker.init).result.retries ≠ 0 := by decide

/-- C3 amended: an attempt classified Unavailable or AccessRestricted (and
not RateLimited, which is checked first) terminates the loop immediately:
exactly one more attempt is made, the result is failed with the fixed error
text (`'Video unavailable'` resp. `'Age-restricted (need cookies)'`), the
recorded `retries` is the failed-attempt count (1 on a first-attempt
failure, not 0), and no retry backoff sleep is incurred. -/
theorem terminal_failure_immediate (url title : String) (outs : Nat → AttemptOut)
    (fuel attempt retries now : Nat) (t : RateLimitTracker) (waits bsleeps : List Nat)
    (msg : String)
    (houts : outs attempt = AttemptOut.procErr msg)
    (h429 : is429 msg = false)
    (hterm : isUnavailableMsg msg = true ∨ isRestrictedMsg msg = true) :
    (dlGo url title outs (fuel + 1) attempt retries now t waits bsleeps).result.status
      = "failed" ∧
    (dlGo url title outs (fuel + 1) attempt retries now t waits bsleeps).result.error
      = some (if isUnavailableMsg msg then "Video unavailable"
              else "Age-restricted (need cookies)") ∧
    (dlGo url title outs (fuel + 1) attempt retries now t waits bsleeps).result.retries
      = retries + 1 ∧
    (dlGo url title outs (fuel + 1) attempt retries now t waits bsleeps).attemptsMade
      = attempt + 1 ∧
    (dlGo url title outs (fuel + 1) attempt retries now t waits bsleeps).retrySleeps
      = bsleeps := by
  by_cases hu : isUnavailableMsg msg = true
  · simp [dlGo, houts, h429, hu, mkFailed]
  · rcases hterm with h | h
    · exact absurd h hu
    · simp [dlGo, houts, h429, hu, h, mkFailed]

/-- Witness for the amended C3 at a concrete `'Video unavailable'` item. -/
theorem terminal_failure_immediate_witness :
    (dlGo "u" "t" (fun _ => AttemptOut.procErr "ERROR: Video unavailable") 3 0 0 0
      RateLimitTracker.init [] []).result.error = some "Video unavailable" ∧
    (dlGo "u" "t" (fun _ => AttemptOut.procErr "ERROR: Video unavailable") 3 0 0 0
      RateLimitTracker.init [] []).attemptsMade = 1 ∧
    (dlGo "u" "t" (fun _ => AttemptOut.procErr "ERROR: Video unavailable") 3 0 0 0
      RateLimitTracker.init [] []).retrySleeps = [] := by
  have h := terminal_failure_immediate "u" "t"
    (fun _ => AttemptOut.procErr "ERROR: Video unavailable") 2 0 0 0
    RateLimitTracker.init [] [] "ERROR: Video unavailable" rfl (by decide)
    (Or.inl (by decide))
  refine ⟨?_, h.2.2.2.1, h.2.2.2.2⟩
  rw [h.2.1]
  decide

/-- C4: an attempt classified RateLimited records a throttle on the shared
rate limiter (`record_429`); if the rotation-needed flag is then set the
item terminates immediately with a failed result whose error is
`'Rate limited - IP rotation needed'` (no further attempts); otherwise,
with attempts remaining, the loop retries after an exponential backoff
sleep, carrying the throttled limiter state. -/
theorem rate_limited_records_and_stops (url title : String) (outs : Nat → AttemptOut)
    (fuel attempt retries now : Nat) (t : RateLimitTracker) (waits bsleeps : List Nat)
    (msg : String)
    (houts : outs attempt = AttemptOut.procErr msg)
    (h429 : is429 msg = true) :
    (let w := should_wait now t
     let now1 := if w.1 then now + w.2 else now
     let waits1 := if w.1 then waits ++ [w.2] else waits
     let t1 := record_429 now1 t
     (t1.ip_rotation_needed = true →
       dlGo url title outs (fuel + 1) attempt retries now t waits bsleeps =
         { result := mkFailed url title "Rate limited - IP rotation needed" (retries + 1)
           limiter := t1, attemptsMade := attempt + 1
           waitSleeps := waits1, retrySleeps := bsleeps, exhausted := false }) ∧
     (t1.ip_rotation_needed = false → attempt < MAX_RETRIES - 1 →
       dlGo url title outs (fuel + 1) attempt retries now t waits bsleeps =
         dlGo url title outs fuel (attempt + 1) (retries + 1)
           (now1 + INITIAL_BACKOFF * 2 ^ attempt) t1 waits1
           (bsleeps ++ [INITIAL_BACKOFF * 2 ^ attempt]))) := by
  refine ⟨fun hrot => ?_, fun hrot hlt => ?_⟩
  · simp [dlGo, houts, h429, hrot]
  · simp [dlGo, houts, h429, hrot, hlt]

/-- Witness for C4: with two throttles already recorded, a third 429
trips the rotation flag and the item stops at once. -/
theorem rate_limited_records_and_stops_witness :
    dlGo "u" "t" (fun _ => AttemptOut.procErr "HTTP Error 429") 3 0 0 0
      { RateLimitTracker.init with consecutive_429s := 2 } [] [] =
      { result := mkFailed "u" "t" "Rate limited - IP rotation needed" 1
        limiter := record_429 0 { RateLimitTracker.init with consecutive_429s := 2 }
        attemptsMade := 1, waitSleeps := [], retrySleeps := [], exhausted := false } := by
  have h := rate_limited_records_and_stops "u" "t"
    (fun _ => AttemptOut.procErr "HTTP Error 429") 2 0 0 0
    { RateLimitTracker.init with consecutive_429s := 2 } [] [] "HTTP Error 429"
    rfl (by decide)
  exact h.1 (by decide)

/-- C5 counterexample: a run in which all three attempts fail with a
non-terminal classification (a generic exception) does exhaust the loop,
but the returned error is the last attempt's message, not
`'Max retries exceeded'` — the post-loop return of v3 line 555 is dead
code. -/
theorem max_retries_message_counterexample :
    (download_video "u" "t" (fun _ => AttemptOut.exc "boom") 0
      RateLimitTracker.init).attemptsMade = 3 ∧
    (download_video "u" "t" (fun _ => AttemptOut.exc "boom") 0
      RateLimitTracker.init).result.status = "failed" ∧
    (download_video "u" "t" (fun _ => AttemptOut.exc "boom") 0
      RateLimitTracker.init).result.error = some "boom" ∧
    (download_video "u" "t" (fun _ => AttemptOut.exc "boom") 0
      RateLimitTracker.init).result.error ≠ some "Max retries exceeded" := by decide

/-- C5 amended: the loop performs at most `MAX_RETRIES = 3` attempts and
always terminates; the `'Max retries exceeded'` post-loop return is never
reached from the loop's entry point; and when no attempt succeeds the loop
terminates with a failed result (carrying the last attempt's error message,
not `'Max retries exceeded'`). -/
theorem retry_loop_bounded (url title : String) (outs : Nat → AttemptOut)
    (now : Nat) (t : RateLimitTracker) :
    (download_video url title outs now t).attemptsMade ≤ MAX_RETRIES ∧
    (download_video url title outs now t).exhausted = false ∧
    ((∀ i, outs i ≠ AttemptOut.ok) →
      (download_video url title outs now t).result.status = "failed") := by
  refine ⟨?_, ?_, ?_⟩
  · have h := dlGo_attempts url title outs MAX_RETRIES 0 0 now t [] []
    simpa [download_video] using h
  · exact dlGo_not_exhausted url title outs MAX_RETRIES 0 0 now t [] [] rfl (by decide)
  · intro hok
    exact dlGo_failed_of_no_ok url title outs hok MAX_RETRIES 0 0 now t [] []

/-- Witness for the amended C5: all-timeout attempts make exactly 3
attempts and end failed. -/
theorem retry_loop_bounded_witness :
    (download_video "u" "t" (fun _ => AttemptOut.timeout) 0
      RateLimitTracker.init).attemptsMade ≤ MAX_RETRIES ∧
    (download_video "u" "t" (fun _ => AttemptOut.timeout) 0
      RateLimitTracker.init).result.status = "failed" := by
  have h := retry_loop_bounded "u" "t" (fun _ => AttemptOut.timeout) 0 RateLimitTracker.init
  exact ⟨h.1, h.2.2 (fun i hi => AttemptOut.noConfusion hi)⟩

/-- C1 counterexample: in a one-item job (reached through the worker's own
resolution phase), the state immediately after the item's per-item update
has `succeeded + failed = total` while the status is still `'downloading'`
— the terminal status is only assigned after the collection loop (v3
line 634), so `succeeded + failed == total` does not imply a terminal
status at every post-update point. -/
theorem terminal_iff_counterexample :
    resolvePhase (initJob "j" "q" 0) { query := "q", urls := some ["u"] } [] =
      ResolveOutcome.startPool poolJob ["u"] ∧
    (runItems 1 poolJob [demoResult]).completed_videos
      + (runItems 1 poolJob [demoResult]).failed_videos
      = (runItems 1 poolJob [demoResult]).total_videos ∧
    isTerminal (runItems 1 poolJob [demoResult]).status = false := by decide

/-- C1 amended: after every per-item update `succeeded + failed =
len(results) ≤ total` holds; `succeeded + failed = total` holds exactly when
all items have been recorded, and the status at every post-update point is
the non-terminal `'downloading'` (the worker sets the terminal `'complete'`
status only after the loop, at which point `succeeded + failed = total`).
The v4 collection loop preserves the same counter identity and does not
touch the status either. -/
theorem job_counters_invariant (n k : Nat) (rs : List DownloadResult) (job0 : JobState)
    (hstatus : job0.status = "downloading")
    (hres : job0.results = [])
    (hc : job0.completed_videos = 0) (hf : job0.failed_videos = 0)
    (htot : job0.total_videos = n)
    (hlen : rs.length = n)
    (hst : ∀ r ∈ rs, r.status = "success" ∨ r.status = "failed")
    (hk : k ≤ n) :
    ((runItems n job0 (rs.take k)).completed_videos
       + (runItems n job0 (rs.take k)).failed_videos
       = (runItems n job0 (rs.take k)).results.length) ∧
    ((runItems n job0 (rs.take k)).results.length
       ≤ (runItems n job0 (rs.take k)).total_videos) ∧
    ((runItems n job0 (rs.take k)).completed_videos
       + (runItems n job0 (rs.take k)).failed_videos
       = (runItems n job0 (rs.take k)).total_videos ↔ k = n) ∧
    isTerminal (runItems n job0 (rs.take k)).status = false ∧
    isTerminal (finishJob (runItems n job0 rs)).status = true ∧
    ((finishJob (runItems n job0 rs)).completed_videos
       + (finishJob (runItems n job0 rs)).failed_videos
       = (finishJob (runItems n job0 rs)).total_videos) ∧
    (∀ (job4 : V4Job) (rs4 : List DownloadResult),
      (v4_collect job4 rs4).completed_videos + (v4_collect job4 rs4).failed_videos
        = job4.completed_videos + job4.failed_videos + rs4.length ∧
      (v4_collect job4 rs4).results.length = job4.results.length + rs4.length ∧
      (v4_collect job4 rs4).status = job4.status) := by
  have htake : (rs.take k).length = k := by
    rw [List.length_take]; omega
  have hstk : ∀ r ∈ rs.take k, r.status = "success" ∨ r.status = "failed" :=
    fun r hr => hst r (List.take_subset k rs hr)
  have hfk := runItems_fields n (rs.take k) job0
  have hck := runItems_counts n (rs.take k) hstk job0
  have hfn := runItems_fields n rs job0
  have hcn := runItems_counts n rs hst job0
  refine ⟨?_, ?_, ?_, ?_, ?_, ?_, ?_⟩
  · rw [hck, hfk.1, hres, hc, hf, List.nil_append, htake]; omega
  · rw [hfk.1, hfk.2.2.1, hres, htot, List.nil_append, htake]; exact hk
  · rw [hck, hfk.2.2.1, hc, hf, htot, htake]
    omega
  · rw [hfk.2.1, hstatus]; decide
  · simp [finishJob, isTerminal]
  · simp only [finishJob]
    rw [hcn, hfn.2.2.1, hc, hf, htot, hlen]
    omega
  · intro job4 rs4
    have h := v4_collect_spec rs4 job4
    refine ⟨h.2.2.2, ?_, h.2.1⟩
    rw [h.1]; simp

/-- Witness for the amended C1: a two-item job after its first per-item
update satisfies the counter identity and is still non-terminal. -/
theorem job_counters_invariant_witness :
    ((runItems 2 { poolJob with total_videos := 2 }
        ([demoResult, demoFailed].take 1)).completed_videos
      + (runItems 2 { poolJob with total_videos := 2 }
        ([demoResult, demoFailed].take 1)).failed_videos
      = (runItems 2 { poolJob with total_videos := 2 }
        ([demoResult, demoFailed].take 1)).results.length) ∧
    isTerminal (runItems 2 { poolJob with total_videos := 2 }
        ([demoResult, demoFailed].take 1)).status = false := by
  have h := job_counters_invariant 2 1 [demoResult, demoFailed]
    { poolJob with total_videos := 2 } rfl rfl rfl rfl rfl rfl
    (by decide) (by decide)
  exact ⟨h.1, h.2.2.2.1⟩

/-- C6 counterexample: GT-V4 passes the request's `concurrent_downloads`
value (schema-validated to at most 10) straight to its thread pool, so a
request for 10 runs a 10-worker pool: the system-wide cap
`min(requested, 3)` is not applied in v4. -/
theorem pool_clamp_counterexample :
    v4_pool_max_workers 10 = 10 ∧
    MAX_CONCURRENT_DOWNLOADS < v4_pool_max_workers 10 ∧
    v4_pool_max_workers 10 ≠ min 10 MAX_CONCURRENT_DOWNLOADS := by decide

/-- C6 amended: v3 sizes its pool as `min(requested, 3)` — never above the
system cap and never above the request — while GT-V4 sizes its pool as the
raw requested value with no clamp. -/
theorem pool_max_workers_spec (req : DownloadRequest) :
    v3_pool_max_workers req ≤ MAX_CONCURRENT_DOWNLOADS ∧
    v3_pool_max_workers req ≤ req.concurrent_downloads ∧
    (req.concurrent_downloads ≤ MAX_CONCURRENT_DOWNLOADS →
      v3_pool_max_workers req = req.concurrent_downloads) ∧
    (∀ c : Nat, v4_pool_max_workers c = c) := by
  refine ⟨min_le_right _ _, min_le_left _ _, ?_, fun c => rfl⟩
  intro h
  exact Nat.min_eq_left h

/-- Witness for the amended C6 at requested = 2 and requested = 10. -/
theorem pool_max_workers_spec_witness :
    v3_pool_max_workers { query := "q", concurrent_downloads := 2 } = 2 ∧
    v3_pool_max_workers { query := "q", concurrent_downloads := 10 } ≤ 3 := by
  have h1 := pool_max_workers_spec { query := "q", concurrent_downloads := 2 }
  have h2 := pool_max_workers_spec { query := "q", concurrent_downloads := 10 }
  exact ⟨h1.2.2.1 (by decide), h2.1⟩

/-- C7 counterexample: v3's progress endpoint computes `elapsed` from the
poll-time clock (`time.time() - job.start_time`, line 805), so two polls of
the same terminal job at different instants return different bodies. -/
theorem progress_elapsed_counterexample :
    isTerminal completeJob.status = true ∧
    api_progress [("j", completeJob)] "j" 100
      ≠ api_progress [("j", completeJob)] "j" 101 := by decide

/-- C7 amended: for a terminal job, repeated polls of v3's
`/api/progress/{job_id}` agree on every field except `elapsed`, which is
recomputed from the current clock on each poll; GT-V4's response takes
`elapsed` from the stored job dict, so it is a pure function of the stored
job and identical across polls. -/
theorem progress_poll_stable (jobs : List (String × JobState)) (job_id : String)
    (now1 now2 : Nat) (job : JobState)
    (hfound : jobs.lookup job_id = some job)
    (_hterm : isTerminal job.status = true) :
    Option.map eraseElapsed (api_progress jobs job_id now1)
      = Option.map eraseElapsed (api_progress jobs job_id now2) ∧
    (∀ (v4jobs : List (String × V4Job)) (job4 : V4Job),
      v4jobs.lookup job_id = some job4 →
      Option.map (fun r => r.elapsed) (v4_get_progress v4jobs job_id)
        = some job4.elapsed) := by
  constructor
  · simp [api_progress, hfound, eraseElapsed]
  · intro v4jobs job4 h4
    simp [v4_get_progress, h4]

/-- Witness for the amended C7 on a concrete completed job polled at 100
and 101. -/
theorem progress_poll_stable_witness :
    Option.map eraseElapsed (api_progress [("j", completeJob)] "j" 100)
      = Option.map eraseElapsed (api_progress [("j", completeJob)] "j" 101) ∧
    Option.map (fun r => r.elapsed)
        (v4_get_progress [("j", ({ job_id := "j", query := "q", status := "complete", elapsed := 42 } : V4Job))] "j")
      = some 42 := by
  have h := progress_poll_stable [("j", completeJob)] "j" 100 101 completeJob
    (by decide) (by decide)
  exact ⟨h.1, h.2 [("j", ({ job_id := "j", query := "q", status := "complete", elapsed := 42 } : V4Job))]
    ({ job_id := "j", query := "q", status := "complete", elapsed := 42 } : V4Job) (by decide)⟩

/-- C8 counterexample: when every search method comes back empty,
`search_youtube` raises `'All search methods failed'` rather than returning
an empty list, so the worker's `except` handler (v3 lines 651–654) marks
the job failed with message `'Error: All search methods failed'` — not
`'No videos found'`.  Progress stays 0 and no pool is started
(`failedJob`), as claimed. -/
theorem no_videos_message_counterexample :
    resolvePhase (initJob "j" "q" 0) { query := "q" } [none, none, none, none] =
      ResolveOutcome.failedJob
        { job_id := "j", query := "q", status := "failed",
          message := "Error: All search methods failed", start_time := 0 } ∧
    "Error: All search methods failed" ≠ "No videos found" ∧
    ({ job_id := "j", query := "q", status := "failed",
       message := "Error: All search methods failed", start_time := 0 } : JobState).progress
      = 0 := by decide

/-- C8 amended: when query resolution yields zero items (all search methods
raise or return empty), the job becomes failed with progress unchanged (0
for a fresh job) and no worker pool is started, but its message is
`'Error: All search methods failed'`; the `'No videos found'` branch of v3
lines 589–592 is unreachable, because `search_youtube` never returns an
empty list (for the schema-guaranteed `max_results ≥ 1`), a direct-URL job
always has one URL, and an empty `urls` field falls through to search. -/
theorem zero_items_job_failed (job0 : JobState) (req : DownloadRequest)
    (searchOuts : List (Option (List String))) (e : String)
    (hurls : req.urls = none ∨ req.urls = some [])
    (hisurl : req.is_url = false)
    (hsearch : search_youtube req.max_results searchOuts = .error e) :
    resolvePhase job0 req searchOuts =
      ResolveOutcome.failedJob
        { job0 with status := "failed", message := errorMessage e } ∧
    ({ job0 with status := "failed", message := errorMessage e } : JobState).progress
      = job0.progress ∧
    errorMessage e ≠ "No videos found" ∧
    (∀ (job1 : JobState) (req1 : DownloadRequest) (outs1 : List (Option (List String)))
        (j : JobState), 1 ≤ req1.max_results →
        resolvePhase job1 req1 outs1 = ResolveOutcome.failedJob j →
        j.message ≠ "No videos found") := by
  refine ⟨?_, rfl, errorMessage_ne_noVideos e, ?_⟩
  · rcases hurls with h | h <;> simp [resolvePhase, h, hisurl, hsearch]
  · intro job1 req1 outs1 j hmax heq
    have hne := search_youtube_ok_ne_nil req1.max_results hmax outs1
    simp only [resolvePhase] at heq
    split at heq
    · simp [afterResolve] at heq
    · split at heq
      · simp [afterResolve] at heq
      · split at heq
        · rename_i e2 herr
          cases heq
          simpa using errorMessage_ne_noVideos e2
        · rename_i l2 hok
          rcases l2 with _ | ⟨u, us⟩
          · exact absurd rfl (hne [] hok)
          · simp [afterResolve] at heq

/-- Witness for the amended C8 on a fresh job whose four search methods all
raise. -/
theorem zero_items_job_failed_witness :
    resolvePhase (initJob "j" "q" 0) { query := "q" } [none, none, none, none] =
      ResolveOutcome.failedJob
        { initJob "j" "q" 0 with
          status := "failed",
          message := errorMessage "All search methods failed" } ∧
    errorMessage "All search methods failed" ≠ "No videos found" := by
  have h := zero_items_job_failed (initJob "j" "q" 0) { query := "q" }
    [none, none, none, none] "All search methods failed" (Or.inl rfl) rfl rfl
  exact ⟨h.1, h.2.2.1⟩

/-- C9 counterexample: for a known but still-downloading job the v3 progress
response hides the already-collected `ItemResult` entries (line 807 returns
`[]` unless the status is `'complete'`), so the response is not the full
data-model snapshot; and the GT-V4 collection loop appends results in
submission order — with two items submitted as `[demoResult, demoFailed]`
and completing in the opposite order, the stored sequence is still
`[demoResult, demoFailed]`, not the completion order. -/
theorem progress_snapshot_counterexample :
    downloadingJob.results = [demoResult] ∧
    Option.map (fun r => r.results) (api_progress [("j", downloadingJob)] "j" 7)
      = some [] ∧
    ([] : List DownloadResult) ≠ [demoResult] ∧
    (v4_collect
        ({ job_id := "j4", query := "q", status := "downloading", total_videos := 2 } : V4Job)
        [demoResult, demoFailed]).results = [demoResult, demoFailed] ∧
    ([demoResult, demoFailed] : List DownloadResult) ≠ [demoFailed, demoResult] := by decide

/-- C9 amended: `/api/progress/{job_id}` returns 404 (`none`) for an unknown
id; for a known job it returns the snapshot of the stored fields, with the
`ItemResult` sequence included only when the status is `'complete'` (empty
otherwise); v3 appends item results in completion order (the `as_completed`
loop), whereas GT-V4 appends them in submission order. -/
theorem progress_endpoint_spec (jobs : List (String × JobState)) (job_id : String) (now : Nat) :
    (jobs.lookup job_id = none → api_progress jobs job_id now = none) ∧
    (∀ job : JobState, jobs.lookup job_id = some job →
      api_progress jobs job_id now = some
        { job_id := job_id
          status := job.status
          progress := job.progress
          message := job.message
          total_videos := job.total_videos
          completed := job.completed_videos
          failed := job.failed_videos
          elapsed := now - job.start_time
          start_time := job.start_time
          results := if job.status == "complete" then job.results else [] }) ∧
    (∀ (n : Nat) (job : JobState) (completionOrder : List DownloadResult),
      (runItems n job completionOrder).results = job.results ++ completionOrder) ∧
    (∀ (job4 : V4Job) (submissionOrder : List DownloadResult),
      (v4_collect job4 submissionOrder).results = job4.results ++ submissionOrder) := by
  refine ⟨fun h => ?_, fun job h => ?_, ?_, ?_⟩
  · simp [api_progress, h]
  · simp [api_progress, h]
  · intro n job comp
    exact (runItems_fields n comp job).1
  · intro job4 sub
    exact (v4_collect_spec sub job4).1

/-- Witness for the amended C9: an unknown id yields 404 and a complete
job's response carries its full result list. -/
theorem progress_endpoint_spec_witness :
    api_progress [("j", completeJob)] "nope" 5 = none ∧
    Option.map (fun r => r.results) (api_progress [("j", completeJob)] "j" 5)
      = some completeJob.results := by
  have h0 := (progress_endpoint_spec [("j", completeJob)] "nope" 5).1 (by decide)
  have h1 := (progress_endpoint_spec [("j", completeJob)] "j" 5).2.1 completeJob (by decide)
  refine ⟨h0, ?_⟩
  rw [h1]
  decide
